import Mathlib

/-!
Verification of the KPI aggregation pipeline (kpi.trustroots.org).

The development shallowly embeds the collection pipeline:

* instants are Unix seconds as `Int`, calendar days (UTC) are `Int` day
  indices obtained by flooring (`t / 86400`, where `/` on `Int` is
  Euclidean division, i.e. floor for a positive divisor); the Go
  `Format("2006-01-02")` day string of an instant is represented by its
  day index, and `Truncate(24 * time.Hour)` by `startOfDay`;
* MongoDB aggregation pipelines (`$match` / `$group` / `$sort`) over a
  collection are embedded as `List.filter`, grouping by day key, and an
  ascending insertion sort over the distinct day keys;
* the Nostr relay network is embedded as a list of relay states (ordinary
  `nostr.RelayConnect` / `QuerySync` outcomes): unreachable, query error,
  or a store of events to which the relay applies the query filter;
* the hidden `time.Now()` reads of the Go code are made explicit as a
  `now : Int` parameter, so that clock (in)dependence becomes provable;
* the `nip19.Decode` capability of the external library is a parameter
  `decode : String → Option (String × String)` returning the tag and the
  decoded value on success (`none` covers both a decode error and a
  non-string decoded value).
-/

namespace KPI

/-! ### Time model -/

/-- Calendar day (UTC) of a Unix instant; embeds `Format("2006-01-02")`. -/
def dayOf (t : Int) : Int := t / 86400

/-- Start of the calendar day containing `t`; embeds `Truncate(24 * time.Hour)`. -/
def startOfDay (t : Int) : Int := 86400 * (t / 86400)

/-- The query cutoff `baseDate.AddDate(0, 0, -7).Truncate(24 * time.Hour)`
used by every relational collector. -/
def sevenDaysAgo (base : Int) : Int := startOfDay (base - 604800)

/-- `baseDate` selection shared by all collectors: the explicit target date
when supplied, otherwise the current clock (`time.Now()`). -/
def baseInstant (targetDate : Option Int) (now : Int) : Int :=
  targetDate.getD now

/-! ### Ascending sort over day keys (the `$sort {_id: 1}` stage) -/

/-- Insert into an ascending list. -/
def insertSorted (x : Int) : List Int → List Int
  | [] => [x]
  | y :: ys => if x ≤ y then x :: y :: ys else y :: insertSorted x ys

/-- Ascending insertion sort, embedding the `$sort` pipeline stage. -/
def sortAsc (l : List Int) : List Int := l.foldr insertSorted []

/-! ### Relational records and per-day outputs (`models` package) -/

/-- A document of the `messages` collection (the fields the pipeline uses). -/
structure MessageRec where
  created : Int
deriving DecidableEq

/-- A document of the `experiences` collection. -/
structure ReviewRec where
  created : Int
  recommend : String
deriving DecidableEq

/-- A document of the `referencethreads` collection. -/
structure VoteRec where
  created : Int
  reference : String
deriving DecidableEq

/-- A document of the `messagestats` collection; `timeToFirstReply` is
`none` when the field is absent or null. -/
structure MessageStatRec where
  firstMessageCreated : Int
  timeToFirstReply : Option Int
deriving DecidableEq

/-- `models.DailyCount`. -/
structure DailyCount where
  date : Int
  count : Nat
deriving DecidableEq

/-- `models.DailyReview`. -/
structure DailyReview where
  date : Int
  positive : Nat
  negative : Nat
deriving DecidableEq

/-- `models.DailyVote`. -/
structure DailyVote where
  date : Int
  upvotes : Nat
  downvotes : Nat
deriving DecidableEq

/-- `models.DailyTime`. -/
structure DailyTime where
  date : Int
  avgMs : Int
deriving DecidableEq

/-! ### The four relational collectors (`MongoCollector`) -/

/-- `collectMessagesPerDay`: match `created ≥ sevenDaysAgo`, group by the
day string of `created` with `$sum 1`, sort ascending by day. -/
def collectMessagesPerDay (msgs : List MessageRec) (base : Int) : List DailyCount :=
  let inRange := msgs.filter (fun m => decide (sevenDaysAgo base ≤ m.created))
  let days := sortAsc ((inRange.map (fun m => dayOf m.created)).dedup)
  days.map (fun d =>
    { date := d
      count := (inRange.filter (fun m => dayOf m.created == d)).length })

/-- `collectReviewsPerDay`: match `created ≥ sevenDaysAgo` and
`recommend ∈ {yes, no}`, group by (day, recommend), regroup per day, and
map the `yes` count to `positive` and the `no` count to `negative`. -/
def collectReviewsPerDay (revs : List ReviewRec) (base : Int) : List DailyReview :=
  let inRange := revs.filter (fun r =>
    decide (sevenDaysAgo base ≤ r.created) &&
      (r.recommend == "yes" || r.recommend == "no"))
  let days := sortAsc ((inRange.map (fun r => dayOf r.created)).dedup)
  days.map (fun d =>
    { date := d
      positive := (inRange.filter (fun r =>
        dayOf r.created == d && r.recommend == "yes")).length
      negative := (inRange.filter (fun r =>
        dayOf r.created == d && r.recommend == "no")).length })

/-- `collectThreadVotesPerDay`: match `created ≥ sevenDaysAgo` (no filter on
`reference`), group by (day, reference), regroup per day; `yes` becomes
`upvotes`, `no` becomes `downvotes`, any other value is dropped. -/
def collectThreadVotesPerDay (votes : List VoteRec) (base : Int) : List DailyVote :=
  let inRange := votes.filter (fun v => decide (sevenDaysAgo base ≤ v.created))
  let days := sortAsc ((inRange.map (fun v => dayOf v.created)).dedup)
  days.map (fun d =>
    { date := d
      upvotes := (inRange.filter (fun v =>
        dayOf v.created == d && v.reference == "yes")).length
      downvotes := (inRange.filter (fun v =>
        dayOf v.created == d && v.reference == "no")).length })

/-- `collectTimeToFirstReplyPerDay`: match `firstMessageCreated ≥
sevenDaysAgo` and `timeToFirstReply` present, group by the day of
`firstMessageCreated` with `$avg`, sort ascending.  The float average
followed by the `int64` conversion is embedded as exact integer division
truncated toward zero (`Int.tdiv`); no claim depends on the value. -/
def collectTimeToFirstReplyPerDay (stats : List MessageStatRec) (base : Int) :
    List DailyTime :=
  let inRange := stats.filter (fun s =>
    decide (sevenDaysAgo base ≤ s.firstMessageCreated) && s.timeToFirstReply.isSome)
  let days := sortAsc ((inRange.map (fun s => dayOf s.firstMessageCreated)).dedup)
  days.map (fun d =>
    let todays := inRange.filter (fun s => dayOf s.firstMessageCreated == d)
    { date := d
      avgMs := Int.tdiv ((todays.filterMap (fun s => s.timeToFirstReply)).foldr (· + ·) 0)
        (todays.length : Int) })

/-- The document store contents read by one cycle. -/
structure StoreData where
  messages : List MessageRec
  reviews : List ReviewRec
  votes : List VoteRec
  messageStats : List MessageStatRec
deriving DecidableEq

/-- `models.TrustrootsData`. -/
structure TrustrootsData where
  messagesPerDay : List DailyCount
  reviewsPerDay : List DailyReview
  threadVotesPerDay : List DailyVote
  timeToFirstReplyPerDay : List DailyTime
deriving DecidableEq

/-- `CollectTrustrootsData`: run the four relational collectors with
`baseDate := targetDate` when supplied, else `time.Now()`. -/
def collectTrustrootsData (store : StoreData) (targetDate : Option Int) (now : Int) :
    TrustrootsData :=
  let base := baseInstant targetDate now
  { messagesPerDay := collectMessagesPerDay store.messages base
    reviewsPerDay := collectReviewsPerDay store.reviews base
    threadVotesPerDay := collectThreadVotesPerDay store.votes base
    timeToFirstReplyPerDay := collectTimeToFirstReplyPerDay store.messageStats base }

/-! ### Nostr events and event processing (`NostrCollector`) -/

/-- `nostr.Event` restricted to the fields the collector reads; together
they are also the stable dedup identity named by the specification. -/
structure NostrEvent where
  pubKey : String
  kind : Int
  createdAt : Int
  content : String
deriving DecidableEq

/-- The fixed kind allow-list `{0, 1, 4, 30023, 397, 30398, 30399}` used
both in the relay query filter and in the per-day bucket maps. -/
def allowedKinds : List Int := [0, 1, 4, 30023, 397, 30398, 30399]

/-- `models.DailyNotes`: a day plus its kind→count map, represented as an
association list over `allowedKinds` (the Go map has exactly these keys,
created by the bucket-initialization loop). -/
structure DailyNotes where
  date : Int
  kinds : List (Int × Nat)
deriving DecidableEq

/-- The seven bucket days `baseDate.AddDate(0, 0, -i)` for `i = 6, …, 0`,
as produced by both the initialization loop and the output loop of
`processEvents` (oldest first). -/
def windowDays (baseDay : Int) : List Int :=
  [baseDay - 6, baseDay - 5, baseDay - 4, baseDay - 3, baseDay - 2, baseDay - 1, baseDay]

/-- The counter value `notesByDay[d][k]` after the event loop of
`processEvents`, for a bucket day `d` and an allow-listed kind `k`. -/
def countForDayKind (events : List NostrEvent) (d k : Int) : Nat :=
  (events.filter (fun e => dayOf e.createdAt == d && e.kind == k)).length

/-- The `[]models.DailyNotes` result of `processEvents`: one record per
window day, oldest first, holding a count for every allow-listed kind. -/
def processEventsNotes (events : List NostrEvent) (baseDay : Int) : List DailyNotes :=
  (windowDays baseDay).map (fun d =>
    { date := d
      kinds := allowedKinds.map (fun k => (k, countForDayKind events d k)) })

/-- `processEvents`: the active-poster count (`len(activeAuthors)`, where
every event's author is inserted, before and regardless of the window
check) paired with the per-day kind counts; `base` is the `baseDate`
instant (`targetDate` or `time.Now()`). -/
def processEvents (events : List NostrEvent) (base : Int) : Nat × List DailyNotes :=
  ((events.map (fun e => e.pubKey)).dedup.length, processEventsNotes events (dayOf base))

/-! ### Relay querying (`queryRelays`) -/

/-- Outcome of one relay in the `queryRelays` loop: `RelayConnect` failed,
`QuerySync` failed, or a list of events was returned. -/
inductive RelayOutcome where
  | connectFail
  | queryFail
  | events (evs : List NostrEvent)
deriving DecidableEq

/-- Events a relay contributes to `allEvents`: a failed relay is skipped
with `continue` and contributes nothing. -/
def relayEvents : RelayOutcome → List NostrEvent
  | .connectFail => []
  | .queryFail => []
  | .events evs => evs

/-- `queryRelays` (lines 157–188): append every reachable relay's events in
relay order; connect and query failures only `continue`; the function
always returns `allEvents, nil`, so the error component is always `ok`. -/
def queryRelays (relays : List RelayOutcome) : Except String (List NostrEvent) :=
  .ok ((relays.map relayEvents).flatten)

/-- The `nostr.Filter` built by `queryRelays`. -/
structure NostrFilter where
  authors : List String
  since : Int
  untilT : Int
  kinds : List Int

/-- Whether an event matches a relay query filter (authors, inclusive time
range, kinds) — the behavior of an honest relay's `QuerySync`. -/
def matchesFilter (f : NostrFilter) (e : NostrEvent) : Bool :=
  f.authors.contains e.pubKey &&
    decide (f.since ≤ e.createdAt) && decide (e.createdAt ≤ f.untilT) &&
    f.kinds.contains e.kind

/-- The `since` bound of the query range: `targetDate.AddDate(0, 0, -7)`
when a target date is supplied, else `time.Now().AddDate(0, 0, -7)`. -/
def querySince (targetDate : Option Int) (now : Int) : Int :=
  (baseInstant targetDate now) - 604800

/-- The `until` bound of the query range: always `time.Now()`, even when an
explicit target date is supplied. -/
def queryUntil (now : Int) : Int := now

/-- A relay as seen from one cycle: unreachable, failing its query, or
holding a store of events to which it applies the query filter. -/
inductive RelayState where
  | unreachable
  | queryError
  | holding (evs : List NostrEvent)
deriving DecidableEq

/-- The `queryRelays` loop over concrete relay states: each reachable relay
returns its stored events matching the filter; failures contribute
nothing. -/
def relayLoopEvents (f : NostrFilter) : RelayState → List NostrEvent
  | .unreachable => []
  | .queryError => []
  | .holding evs => evs.filter (matchesFilter f)

/-- `queryRelays` end to end over relay states: build the single filter
(authors, `[since, until]`, kind allow-list) and concatenate every relay's
result. -/
def queryRelaysFull (relays : List RelayState) (pubkeys : List String)
    (targetDate : Option Int) (now : Int) : List NostrEvent :=
  let f : NostrFilter :=
    { authors := pubkeys
      since := querySince targetDate now
      untilT := queryUntil now
      kinds := allowedKinds }
  (relays.map (relayLoopEvents f)).flatten

/-! ### Identity resolution (`getNpubsFromUsers`, `queryRelaysForEvents`) -/

/-- A `users` document reduced to its optional `nostrNpub` field. -/
structure UserRec where
  nostrNpub : Option String
deriving DecidableEq

/-- `getNpubsFromUsers`: keep the non-empty `nostrNpub` values (the Mongo
filter requires the field to exist and differ from `""`, and the loop
re-checks non-emptiness). -/
def npubsFromUsers (users : List UserRec) : List String :=
  users.filterMap (fun u =>
    match u.nostrNpub with
    | some s => if s = "" then none else some s
    | none => none)

/-- The count of users with a non-empty key field (`CollectUsersWithNpubs`
and the length of the `getNpubsFromUsers` result). -/
def usersWithKeyField (users : List UserRec) : Nat :=
  (npubsFromUsers users).length

/-- The `len(npub) > 5 && npub[:5] == "npub1"` pre-check. -/
def looksLikeNpub (s : String) : Bool :=
  s.length > 5 && s.take 5 == "npub1"

/-- The pubkey-conversion loop of `queryRelaysForEvents`: a string is
forwarded iff it passes the pre-check and `decode` returns tag `"npub"`
with a string value; `validNpubs` is incremented exactly when a pubkey is
appended, so it always equals the length of this list. -/
def pubkeysOf (decode : String → Option (String × String)) (npubs : List String) :
    List String :=
  npubs.filterMap (fun npub =>
    if looksLikeNpub npub then
      match decode npub with
      | some (tag, value) => if tag = "npub" then some value else none
      | none => none
    else none)

/-- `queryRelaysForEvents`: returns `(validNpubs, activePosters,
notesByKind)`.  Empty npub list: `(0, 0, [])` with no relay contacted; no
decodable pubkey: `(validNpubs, 0, [])` with no relay contacted; otherwise
query the relays and process the events (`queryRelays` never returns a
non-nil error, so the error branch is dead). -/
def queryRelaysForEvents (decode : String → Option (String × String))
    (npubs : List String) (relays : List RelayState)
    (targetDate : Option Int) (now : Int) : Nat × Nat × List DailyNotes :=
  if npubs = [] then (0, 0, [])
  else
    let pubkeys := pubkeysOf decode npubs
    if pubkeys = [] then (pubkeys.length, 0, [])
    else
      let events := queryRelaysFull relays pubkeys targetDate now
      let res := processEvents events (baseInstant targetDate now)
      (pubkeys.length, res.1, res.2)

/-! ### Snapshot publishing (`Aggregator.SaveToFile`) -/

/-- Filesystem operations observable from `SaveToFile`. -/
inductive FsOp where
  | mkdirAll (dir : String)
  | writeFile (path : String) (content : String)
  | rename (src : String) (dst : String)
deriving DecidableEq

/-- Whether an operation is an atomic rename. -/
def isRename : FsOp → Bool
  | .rename _ _ => true
  | _ => false

/-- `filepath.Dir` for slash-separated paths: everything before the last
separator, or `"."` when there is none. -/
def dirOf (p : String) : String :=
  match (p.toList.reverse.dropWhile (fun c => c ≠ '/')) with
  | [] => "."
  | _ :: tl => String.mk tl.reverse

/-- The filesystem trace of a successful `SaveToFile`: `os.MkdirAll` on the
parent directory, then a direct `os.WriteFile` of the serialized snapshot
to the final output path — no temporary file and no rename. -/
def saveToFileOps (outputPath : String) (json : String) : List FsOp :=
  [.mkdirAll (dirOf outputPath), .writeFile outputPath json]

/-- The error path of `SaveToFile`: each stage's failure is wrapped with a
stage label and returned; only if all stages succeed is `ok` returned. -/
def saveToFile (mkdirErr marshalErr writeErr : Option String) : Except String Unit :=
  match mkdirErr with
  | some e => .error ("failed to create output directory: " ++ e)
  | none =>
    match marshalErr with
    | some e => .error ("failed to marshal JSON: " ++ e)
    | none =>
      match writeErr with
      | some e => .error ("failed to write file: " ++ e)
      | none => .ok ()

/-- Intermediate file contents observable at the written path while a
non-atomic `os.WriteFile` of `content` is in progress (the proper
prefixes, from the truncated empty file onward). -/
def writeIntermediates (content : String) : List String :=
  (List.range content.length).map (fun n => content.take n)

/-! ### Concrete instances used by counterexamples and witnesses -/

/-- The overlapping event returned by two relays in the deduplication
scenario of the specification. -/
def dupEvent : NostrEvent := { pubKey := "pub1", kind := 1, createdAt := 0, content := "x" }

/-- A decode capability knowing exactly one npub. -/
def demoDecode : String → Option (String × String) :=
  fun s => if s = "npub1alice" then some ("npub", "alicepk") else none

/-- An event whose timestamp lies between two candidate clock readings. -/
def demoEvent : NostrEvent :=
  { pubKey := "alicepk", kind := 1, createdAt := 1000000, content := "hello" }

/-- A single reachable relay holding `demoEvent`. -/
def demoRelays : List RelayState := [RelayState.holding [demoEvent]]

/-- An event authored on a day far outside the 7-day window. -/
def outsideEvent : NostrEvent :=
  { pubKey := "alice", kind := 1, createdAt := 8640000, content := "y" }

/-- A same-day review set exercising all three discriminator values. -/
def demoReviews : List ReviewRec :=
  [{ created := 0, recommend := "yes" }, { created := 0, recommend := "no" },
    { created := 0, recommend := "maybe" }]

/-! ### Helper lemmas -/

theorem mem_insertSorted {y x : Int} {l : List Int} :
    y ∈ insertSorted x l ↔ y = x ∨ y ∈ l := by
  induction l with
  | nil => simp [insertSorted]
  | cons h t ih =>
    by_cases hx : x ≤ h
    · simp [insertSorted, hx]
    · simp [insertSorted, hx, ih]
      tauto

theorem mem_sortAsc {y : Int} {l : List Int} : y ∈ sortAsc l ↔ y ∈ l := by
  induction l with
  | nil => simp [sortAsc]
  | cons h t ih =>
    simp [sortAsc, List.foldr] at ih ⊢
    rw [mem_insertSorted, ih]

/-- Any instant at or after the truncated cutoff falls on a day at or after
the cutoff's day. -/
theorem cutoff_day_le {base t : Int} (h : sevenDaysAgo base ≤ t) :
    (base - 604800) / 86400 ≤ dayOf t := by
  have h2 : (86400 : Int) * ((base - 604800) / 86400) ≤ t := h
  show (base - 604800) / 86400 ≤ t / 86400
  rw [Int.le_ediv_iff_mul_le (by norm_num : (0 : Int) < 86400)]
  linarith [h2]

theorem filterAndYes (dq c y n : Bool) :
    ((dq && y) && (c && (y || n))) = (c && (dq && y)) := by
  cases dq <;> cases c <;> cases y <;> cases n <;> rfl

theorem filterAndNo (dq c y n : Bool) :
    ((dq && n) && (c && (y || n))) = (c && (dq && n)) := by
  cases dq <;> cases c <;> cases y <;> cases n <;> rfl

theorem filterMaybeDrop (c : Bool) (s : String) :
    ((c && (s == "yes" || s == "no")) && !(s == "maybe"))
      = (c && (s == "yes" || s == "no")) := by
  by_cases h : s = "maybe" <;> simp [h]

theorem filter_filter_eq {α : Type} (l : List α) (p q t : α → Bool)
    (h : ∀ a, (q a && p a) = t a) :
    (l.filter p).filter q = l.filter t := by
  rw [List.filter_filter]
  exact congrArg (fun f => List.filter f l) (funext h)

/-! ### Claim theorems -/

/-- Claim C1 (code_bug): the merge of relay results performs no
deduplication, so an identical event returned by two relays is counted
once per relay: `queryRelays` concatenates the two copies unchanged, and
`processEvents` then reports a per-day kind-1 count of 2 for the single
underlying event, where the specification requires 1. -/
theorem claim1_cross_relay_duplicates_double_count :
    queryRelays [RelayOutcome.events [dupEvent], RelayOutcome.events [dupEvent]]
      = Except.ok [dupEvent, dupEvent]
    ∧ countForDayKind [dupEvent, dupEvent] 0 1 = 2
    ∧ ({ date := 0,
         kinds := [(0, 0), (1, 2), (4, 0), (30023, 0), (397, 0), (30398, 0), (30399, 0)] } :
        DailyNotes) ∈ processEventsNotes [dupEvent, dupEvent] 0 :=
  ⟨rfl, by decide, by decide⟩

/-- Claim C3 counterexample: with the same explicit reference date
(instant 0) and identical relay-side source data, two runs whose only
difference is the hidden `time.Now()` reading (500000 vs 2000000) produce
different relay-metric outputs — the `until` bound of the relay query is
taken from the clock even in explicit-date mode, and the event admitted
only under the later clock changes the active-poster count from 0 to 1. -/
theorem claim3_hidden_clock_read_counterexample :
    queryRelaysForEvents demoDecode ["npub1alice"] demoRelays (some 0) 500000
      ≠ queryRelaysForEvents demoDecode ["npub1alice"] demoRelays (some 0) 2000000
    ∧ (queryRelaysForEvents demoDecode ["npub1alice"] demoRelays (some 0) 500000).2.1 = 0
    ∧ (queryRelaysForEvents demoDecode ["npub1alice"] demoRelays (some 0) 2000000).2.1 = 1 :=
  ⟨by decide, by decide, by decide⟩

/-- Claim C3 (corrected): once an explicit reference date is supplied, the
relational-metric portion of the snapshot reads no clock — it is
identical across runs with different `time.Now()` values — and the
`since` bound and the daily-note bucket set are likewise clock-free; only
the relay query's `until` bound still depends on the clock. -/
theorem claim3_relational_portion_deterministic (store : StoreData) (d now1 now2 : Int)
    (evs : List NostrEvent) :
    collectTrustrootsData store (some d) now1 = collectTrustrootsData store (some d) now2
    ∧ querySince (some d) now1 = querySince (some d) now2
    ∧ (processEvents evs (baseInstant (some d) now1)).2
        = (processEvents evs (baseInstant (some d) now2)).2 :=
  ⟨rfl, rfl, rfl⟩

/-- Claim C4 counterexample: with reference instant 0 (reference day 0),
a message created at instant -604800 (exactly the truncated cutoff, which
is the start of day -7) and one created at instant 3715200 (day 43) both
survive the `created ≥ sevenDaysAgo` match, so the output contains the
day key -7, which is earlier than day -6, and the day key 43, which is
later than the reference day 0. -/
theorem claim4_window_bounds_counterexample :
    collectMessagesPerDay [{ created := -604800 }, { created := 3715200 }] 0
      = [{ date := -7, count := 1 }, { date := 43, count := 1 }]
    ∧ (-7 : Int) < 0 - 6
    ∧ (0 : Int) < 43 := by decide

/-- Claim C4 (corrected): every day key in any of the four relational
metric outputs is at least the day of the truncated seven-days-ago
cutoff, i.e. at least (reference day - 7); the code enforces no upper
bound at all, so the window is `[D - 7, ∞)`, not `[D - 6, D]`. -/
theorem claim4_day_keys_lower_bound (msgs : List MessageRec) (revs : List ReviewRec)
    (votes : List VoteRec) (stats : List MessageStatRec) (base : Int) :
    (∀ rec ∈ collectMessagesPerDay msgs base, (base - 604800) / 86400 ≤ rec.date)
    ∧ (∀ rec ∈ collectReviewsPerDay revs base, (base - 604800) / 86400 ≤ rec.date)
    ∧ (∀ rec ∈ collectThreadVotesPerDay votes base, (base - 604800) / 86400 ≤ rec.date)
    ∧ (∀ rec ∈ collectTimeToFirstReplyPerDay stats base,
        (base - 604800) / 86400 ≤ rec.date) := by
  refine ⟨?_, ?_, ?_, ?_⟩ <;> intro rec hrec
  · simp only [collectMessagesPerDay, List.mem_map] at hrec
    obtain ⟨d, hd, rfl⟩ := hrec
    rw [mem_sortAsc, List.mem_dedup, List.mem_map] at hd
    obtain ⟨m, hm, rfl⟩ := hd
    rw [List.mem_filter] at hm
    exact cutoff_day_le (of_decide_eq_true hm.2)
  · simp only [collectReviewsPerDay, List.mem_map] at hrec
    obtain ⟨d, hd, rfl⟩ := hrec
    rw [mem_sortAsc, List.mem_dedup, List.mem_map] at hd
    obtain ⟨r, hr, rfl⟩ := hd
    rw [List.mem_filter, Bool.and_eq_true] at hr
    exact cutoff_day_le (of_decide_eq_true hr.2.1)
  · simp only [collectThreadVotesPerDay, List.mem_map] at hrec
    obtain ⟨d, hd, rfl⟩ := hrec
    rw [mem_sortAsc, List.mem_dedup, List.mem_map] at hd
    obtain ⟨v, hv, rfl⟩ := hd
    rw [List.mem_filter] at hv
    exact cutoff_day_le (of_decide_eq_true hv.2)
  · simp only [collectTimeToFirstReplyPerDay, List.mem_map] at hrec
    obtain ⟨d, hd, rfl⟩ := hrec
    rw [mem_sortAsc, List.mem_dedup, List.mem_map] at hd
    obtain ⟨s, hs, rfl⟩ := hd
    rw [List.mem_filter, Bool.and_eq_true] at hs
    exact cutoff_day_le (of_decide_eq_true hs.2.1)

/-- Claim C4 witness: the lower-bound theorem applied to a store holding
one message at instant 0 with reference instant 0. -/
theorem claim4_day_keys_lower_bound_witness :
    ({ date := 0, count := 1 } : DailyCount) ∈ collectMessagesPerDay [{ created := 0 }] 0
    ∧ ((0 : Int) - 604800) / 86400 ≤ (0 : Int) :=
  ⟨by decide,
    (claim4_day_keys_lower_bound [{ created := 0 }] [] [] [] 0).1
      { date := 0, count := 1 } (by decide)⟩

/-- Claim C5 counterexample: `processEvents` inserts every event's author
into the active-poster set before (and regardless of) the window check,
so a single event on day 100 — outside the 7-day window ending at day 0,
and contributing to no bucket — still yields an active-poster count of 1
where the claim requires 0. -/
theorem claim5_active_posters_counterexample :
    (processEvents [outsideEvent] 0).1 = 1
    ∧ dayOf outsideEvent.createdAt ∉ windowDays (dayOf 0)
    ∧ processEventsNotes [outsideEvent] 0 = processEventsNotes [] 0 := by decide

/-- Claim C5 (corrected): the active-poster count equals the number of
distinct author keys among ALL events handed to `processEvents`,
including events whose day falls outside the 7-day bucket window. -/
theorem claim5_active_posters_all_events (events : List NostrEvent) (base : Int) :
    (processEvents events base).1 = ((events.map (fun e => e.pubKey)).toFinset).card := by
  simp [processEvents, List.card_toFinset]

/-- Claim C6 (confirmed): a connect failure or a query failure on one
relay leaves the result of `queryRelays` over the remaining relays
unchanged — the failed relay contributes zero events — and the operation
always returns success, never aborting on an unreachable relay. -/
theorem claim6_relay_failure_isolated (pre post relays : List RelayOutcome) :
    queryRelays (pre ++ RelayOutcome.connectFail :: post) = queryRelays (pre ++ post)
    ∧ queryRelays (pre ++ RelayOutcome.queryFail :: post) = queryRelays (pre ++ post)
    ∧ relayEvents RelayOutcome.connectFail = []
    ∧ relayEvents RelayOutcome.queryFail = []
    ∧ ∃ evs, queryRelays relays = Except.ok evs := by
  refine ⟨?_, ?_, rfl, rfl, ⟨_, rfl⟩⟩ <;> simp [queryRelays, relayEvents]

/-- Claim C2 (confirmed): for every reference day and every (possibly
empty) event list, `processEvents` emits exactly 7 daily-notes records,
one per consecutive calendar day ending at the reference day, oldest
first; every record carries a count for exactly the allow-listed kinds,
the count for a (day, kind) pair with no event is 0, and the set of
records and their fields is independent of the events (so a failed relay
can change only the counts). -/
theorem claim2_daily_notes_schema (events : List NostrEvent) (b : Int) :
    (processEventsNotes events b).length = 7
    ∧ (processEventsNotes events b).map DailyNotes.date = windowDays b
    ∧ windowDays b = (List.range 7).map (fun i => b - 6 + i)
    ∧ (∀ rec ∈ processEventsNotes events b, rec.kinds.map Prod.fst = allowedKinds)
    ∧ (∀ rec ∈ processEventsNotes events b, ∀ p ∈ rec.kinds,
        p.2 = countForDayKind events rec.date p.1)
    ∧ (∀ rec ∈ processEventsNotes events b, ∀ p ∈ rec.kinds,
        countForDayKind events rec.date p.1 = 0 → p.2 = 0)
    ∧ (processEventsNotes events b).map DailyNotes.date
        = (processEventsNotes [] b).map DailyNotes.date := by
  refine ⟨?_, ?_, ?_, ?_, ?_, ?_, ?_⟩
  · simp [processEventsNotes, windowDays]
  · simp [processEventsNotes, List.map_map, Function.comp_def]
  · simp [windowDays, List.range_succ]
    omega
  · intro rec hrec
    simp only [processEventsNotes, List.mem_map] at hrec
    obtain ⟨d, _, rfl⟩ := hrec
    simp [List.map_map, Function.comp_def]
  · intro rec hrec p hp
    simp only [processEventsNotes, List.mem_map] at hrec
    obtain ⟨d, _, rfl⟩ := hrec
    simp only [List.mem_map] at hp
    obtain ⟨k, _, rfl⟩ := hp
    rfl
  · intro rec hrec p hp h0
    simp only [processEventsNotes, List.mem_map] at hrec
    obtain ⟨d, _, rfl⟩ := hrec
    simp only [List.mem_map] at hp
    obtain ⟨k, _, rfl⟩ := hp
    exact h0
  · simp [processEventsNotes, List.map_map, Function.comp_def]

/-- Claim C2 witness: the schema theorem applied to the empty event list
and reference day 0, exercised at the newest bucket record. -/
theorem claim2_daily_notes_schema_witness :
    ({ date := 0,
       kinds := [(0, 0), (1, 0), (4, 0), (30023, 0), (397, 0), (30398, 0), (30399, 0)] } :
      DailyNotes) ∈ processEventsNotes [] 0
    ∧ ({ date := 0,
         kinds := [(0, 0), (1, 0), (4, 0), (30023, 0), (397, 0), (30398, 0), (30399, 0)] } :
        DailyNotes).kinds.map Prod.fst = allowedKinds
    ∧ (processEventsNotes [] 0).length = 7 :=
  ⟨by decide,
    (claim2_daily_notes_schema [] 0).2.2.2.1
      { date := 0,
        kinds := [(0, 0), (1, 0), (4, 0), (30023, 0), (397, 0), (30398, 0), (30399, 0)] }
      (by decide),
    (claim2_daily_notes_schema [] 0).1⟩

/-- Claim C7 (code_bug): `SaveToFile` creates the parent directory and
reports every stage's failure, but it writes the serialized snapshot
directly to the final output path with no temporary file and no rename,
so the write is not atomic: while the non-atomic write is in progress the
output path observably holds a proper prefix ("A") of the data ("AB"). -/
theorem claim7_save_not_atomic :
    saveToFileOps "out/kpi.json" "AB"
      = [FsOp.mkdirAll "out", FsOp.writeFile "out/kpi.json" "AB"]
    ∧ ((saveToFileOps "out/kpi.json" "AB").all (fun op => !(isRename op))) = true
    ∧ "A" ∈ writeIntermediates "AB"
    ∧ saveToFile (some "disk full") none none
        = Except.error "failed to create output directory: disk full"
    ∧ saveToFile none (some "bad json") none = Except.error "failed to marshal JSON: bad json"
    ∧ saveToFile none none (some "io error") = Except.error "failed to write file: io error"
    ∧ saveToFile none none none = Except.ok () :=
  ⟨by decide, by decide, by decide, rfl, rfl, rfl, rfl⟩

/-- Claim C8 (confirmed): for a review set whose discriminator takes
values in {yes, no, maybe}, removing the "maybe" records leaves the
output unchanged, and every output record's positive tally counts exactly
the in-window "yes" records of its day while the negative tally counts
exactly the "no" records — "maybe" appears in neither tally. -/
theorem claim8_reviews_maybe_excluded (revs : List ReviewRec) (base : Int)
    (_hvals : ∀ r ∈ revs,
      r.recommend = "yes" ∨ r.recommend = "no" ∨ r.recommend = "maybe") :
    collectReviewsPerDay revs base
      = collectReviewsPerDay (revs.filter (fun r => !(r.recommend == "maybe"))) base
    ∧ (∀ rec ∈ collectReviewsPerDay revs base,
        rec.positive = (revs.filter (fun r =>
          decide (sevenDaysAgo base ≤ r.created) &&
            (dayOf r.created == rec.date && r.recommend == "yes"))).length
        ∧ rec.negative = (revs.filter (fun r =>
          decide (sevenDaysAgo base ≤ r.created) &&
            (dayOf r.created == rec.date && r.recommend == "no"))).length) := by
  have hin : (revs.filter (fun r => !(r.recommend == "maybe"))).filter
      (fun r => decide (sevenDaysAgo base ≤ r.created) &&
        (r.recommend == "yes" || r.recommend == "no"))
      = revs.filter (fun r => decide (sevenDaysAgo base ≤ r.created) &&
        (r.recommend == "yes" || r.recommend == "no")) :=
    filter_filter_eq revs _ _ _ (fun r => filterMaybeDrop _ _)
  constructor
  · simp only [collectReviewsPerDay]
    rw [hin]
  · intro rec hrec
    simp only [collectReviewsPerDay, List.mem_map] at hrec
    obtain ⟨d, hd, rfl⟩ := hrec
    constructor
    · dsimp only
      exact congrArg List.length
        (filter_filter_eq revs _ _ _ (fun r => filterAndYes _ _ _ _))
    · dsimp only
      exact congrArg List.length
        (filter_filter_eq revs _ _ _ (fun r => filterAndNo _ _ _ _))

/-- Claim C8 witness: the tally theorem applied to a same-day set holding
one "yes", one "no" and one "maybe" review. -/
theorem claim8_reviews_maybe_excluded_witness :
    (demoReviews.all (fun r =>
      (r.recommend == "yes") || (r.recommend == "no") || (r.recommend == "maybe"))) = true
    ∧ collectReviewsPerDay demoReviews 0
        = collectReviewsPerDay (demoReviews.filter (fun r => !(r.recommend == "maybe"))) 0 :=
  ⟨by decide, (claim8_reviews_maybe_excluded demoReviews 0 (by decide)).1⟩

/-- Claim C9 (confirmed): the count of forwarded raw keys (which is the
reported `validNpubs` count) never exceeds the count of users with a
non-empty key field; a record with an absent or empty key field changes
neither count; and the first component of the relay-collection result
always equals the number of keys that pass the decode step. -/
theorem claim9_identity_counts (decode : String → Option (String × String))
    (users : List UserRec) (relays : List RelayState) (targetDate : Option Int) (now : Int) :
    (pubkeysOf decode (npubsFromUsers users)).length ≤ usersWithKeyField users
    ∧ npubsFromUsers ({ nostrNpub := none } :: users) = npubsFromUsers users
    ∧ npubsFromUsers ({ nostrNpub := some "" } :: users) = npubsFromUsers users
    ∧ (queryRelaysForEvents decode (npubsFromUsers users) relays targetDate now).1
        = (pubkeysOf decode (npubsFromUsers users)).length := by
  refine ⟨List.length_filterMap_le _ _, ?_, ?_, ?_⟩
  · simp [npubsFromUsers]
  · simp [npubsFromUsers]
  · by_cases h1 : npubsFromUsers users = []
    · simp [queryRelaysForEvents, h1, pubkeysOf]
    · by_cases h2 : pubkeysOf decode (npubsFromUsers users) = []
      · simp [queryRelaysForEvents, h1, h2]
      · simp [queryRelaysForEvents, h1, h2]

/-- Claim C10 (confirmed): with no npub at all, or with npubs none of
which decodes to a pubkey, the relay collection returns active-poster
count 0 and an empty daily-notes list (not a 7-bucket zero series), and
the result does not depend on the relay list or the clock — no relay is
contacted. -/
theorem claim10_no_identities_empty_result (decode : String → Option (String × String))
    (npubs : List String) (relays relaysB : List RelayState)
    (targetDate : Option Int) (now nowB : Int) :
    queryRelaysForEvents decode [] relays targetDate now = (0, 0, [])
    ∧ (pubkeysOf decode npubs = [] →
        queryRelaysForEvents decode npubs relays targetDate now
          = ((pubkeysOf decode npubs).length, 0, [])
        ∧ queryRelaysForEvents decode npubs relays targetDate now
            = queryRelaysForEvents decode npubs relaysB targetDate nowB) := by
  constructor
  · simp [queryRelaysForEvents]
  · intro h
    by_cases hn : npubs = []
    · subst hn
      simp [queryRelaysForEvents, pubkeysOf]
    · constructor <;> simp [queryRelaysForEvents, hn, h]

/-- Claim C10 witness: a single malformed key ("not-a-real-key") yields no
pubkey, and the collection over a nonempty relay list returns
`(0, 0, [])` — equal to the run over no relays at all. -/
theorem claim10_no_identities_empty_result_witness :
    pubkeysOf (fun _ => none) ["not-a-real-key"] = []
    ∧ queryRelaysForEvents (fun _ => none) ["not-a-real-key"]
        [RelayState.unreachable] none 0 = (0, 0, []) :=
  ⟨by decide, by
    have h := (claim10_no_identities_empty_result (fun _ => none) ["not-a-real-key"]
      [RelayState.unreachable] [] none 0 0).2 (by decide)
    exact h.1⟩

end KPI
